import Mathlib

/-!
Shallow embedding of `ntfy-rs` (src/lib.rs): a small library that sends
push notifications to an ntfy-compatible relay via a single HTTP POST.

Strings of the Rust source are modelled as Lean `String`; the external
HTTP collaborator (reqwest) is modelled as an explicit `send` function
passed to the dispatcher, returning `Except ε HttpResponse` where `ε`
is the opaque transport-error type.
-/

/-- `Client` (src/lib.rs lines 1-12): the target of a notification. -/
structure Client where
  server : String
  topic : String
  uuid : String
deriving Repr, DecidableEq

/-- `Client::new` (src/lib.rs lines 16-22): stores the three strings verbatim. -/
def Client.new (server : String) (topic : String) (uuid : String) : Client :=
  { server := server, topic := topic, uuid := uuid }

/-- `Message` (src/lib.rs lines 26-41): the content of a notification. -/
structure Message where
  title : Option String
  message : String
  tags : Option String
deriving Repr, DecidableEq

/-- `MessageBuilder` (src/lib.rs lines 50-65): same fields as `Message`. -/
structure MessageBuilder where
  title : Option String
  message : String
  tags : Option String
deriving Repr, DecidableEq

/-- `MessageBuilder::new` (src/lib.rs lines 68-74). -/
def MessageBuilder.new (message : String) : MessageBuilder :=
  { title := none, message := message, tags := none }

/-- `Message::builder` (src/lib.rs lines 45-47). -/
def Message.builder (message : String) : MessageBuilder :=
  MessageBuilder.new message

/-- `MessageBuilder::title` (src/lib.rs lines 77-82); the Rust method is
named `title`, which clashes with the field name in Lean. -/
def MessageBuilder.setTitle (b : MessageBuilder) (title : String) : MessageBuilder :=
  { b with title := some title }

/-- `MessageBuilder::tags` (src/lib.rs lines 85-90); the Rust method is
named `tags`, which clashes with the field name in Lean. -/
def MessageBuilder.setTags (b : MessageBuilder) (tags : String) : MessageBuilder :=
  { b with tags := some tags }

/-- `MessageBuilder::build` (src/lib.rs lines 93-99). -/
def MessageBuilder.build (b : MessageBuilder) : Message :=
  { title := b.title, message := b.message, tags := b.tags }

/-- An outbound HTTP request as assembled by the reqwest builder chain
`post(url).header(..).header(..).body(..)`. -/
structure HttpRequest where
  url : String
  headers : List (String × String)
  body : String
deriving Repr, DecidableEq

/-- An HTTP response as returned by the transport collaborator; the
dispatcher never inspects it. -/
structure HttpResponse where
  status : Nat
  body : String
deriving Repr, DecidableEq

/-- `reqwest::Client` (stateless in this model). -/
structure ReqwestClient where
deriving Repr, DecidableEq

/-- `reqwest::Client::new()`. -/
def ReqwestClient.new : ReqwestClient := {}

/-- `reqwest::Client::post(url)`: begins a request with no headers and an
empty body. -/
def ReqwestClient.post (_c : ReqwestClient) (url : String) : HttpRequest :=
  { url := url, headers := [], body := "" }

/-- `.header(key, value)`: appends one header. -/
def HttpRequest.header (r : HttpRequest) (key : String) (value : String) : HttpRequest :=
  { r with headers := r.headers ++ [(key, value)] }

/-- `.body(b)`: sets the request body (the Rust method is named `body`,
which clashes with the field name in Lean). -/
def HttpRequest.setBody (r : HttpRequest) (b : String) : HttpRequest :=
  { r with body := b }

/-- The request that `ntfy` (src/lib.rs lines 103-127) hands to the
transport: URL `"{server}/{topic}_{uuid}"`, headers `Title` and `Tags`
(absent options resolved to the empty string), body `msg.message`. -/
def ntfyRequest (cli : Client) (msg : Message) : HttpRequest :=
  let url := cli.server ++ "/" ++ cli.topic ++ "_" ++ cli.uuid
  let title := match msg.title with
    | some s => s
    | none => ""
  let tags := match msg.tags with
    | some s => s
    | none => ""
  let client := ReqwestClient.new
  (((client.post url).header "Title" title).header "Tags" tags).setBody msg.message

/-- `ntfy` (src/lib.rs lines 103-127): assembles the request, performs the
send, and on `Ok(res)` returns `Ok(res)`; the `?` operator propagates a
transport error unmodified. `send` abstracts `reqwest`'s
`.send().await`. -/
def ntfy {ε : Type} (send : HttpRequest → Except ε HttpResponse)
    (cli : Client) (msg : Message) : Except ε HttpResponse :=
  match send (ntfyRequest cli msg) with
  | Except.ok res => Except.ok res
  | Except.error e => Except.error e

/-- The dispatcher is exactly: hand `ntfyRequest` to the transport and
pass the outcome through. -/
theorem ntfy_eq_send {ε : Type} (send : HttpRequest → Except ε HttpResponse)
    (cli : Client) (msg : Message) :
    ntfy send cli msg = send (ntfyRequest cli msg) := by
  unfold ntfy
  cases send (ntfyRequest cli msg) <;> rfl

/-- C1: the destination URL constructed by the dispatcher is exactly the
concatenation `server ++ "/" ++ topic ++ "_" ++ uuid`, with no
transformation of any component, and that request is what the dispatcher
hands to the transport. -/
theorem ntfy_url_exact {ε : Type} (send : HttpRequest → Except ε HttpResponse)
    (cli : Client) (msg : Message) :
    ntfy send cli msg = send (ntfyRequest cli msg) ∧
      (ntfyRequest cli msg).url = cli.server ++ "/" ++ cli.topic ++ "_" ++ cli.uuid := by
  refine ⟨ntfy_eq_send send cli msg, ?_⟩
  rfl

/-- C2: a non-2xx HTTP response delivered by the transport is returned by
the dispatcher as a normal `Except.ok` result, unmodified. -/
theorem ntfy_non2xx_is_ok {ε : Type} (send : HttpRequest → Except ε HttpResponse)
    (cli : Client) (msg : Message) (res : HttpResponse)
    (hsend : send (ntfyRequest cli msg) = Except.ok res)
    (_hstatus : res.status < 200 ∨ 300 ≤ res.status) :
    ntfy send cli msg = Except.ok res := by
  rw [ntfy_eq_send, hsend]

/-- Witness for C2: with a transport that delivers a 404 response, the
dispatcher returns it as `Except.ok`. -/
theorem ntfy_non2xx_is_ok_witness :
    ntfy (ε := String) (fun _ => Except.ok { status := 404, body := "not found" })
        (Client.new "https://ntfy.sh" "backup" "xyz123")
        { title := none, message := "Ping", tags := none } =
      Except.ok { status := 404, body := "not found" } :=
  ntfy_non2xx_is_ok _ _ _ _ rfl (by decide)

/-- C3: when `title` is `none` the dispatcher still sends a `Title` header
whose value is the empty string, and when `tags` is `none` it still sends
a `Tags` header whose value is the empty string. -/
theorem ntfy_none_headers_empty (cli : Client) (msg : Message) :
    (msg.title = none → (ntfyRequest cli msg).headers.lookup "Title" = some "") ∧
      (msg.tags = none → (ntfyRequest cli msg).headers.lookup "Tags" = some "") := by
  constructor
  · intro h
    simp [ntfyRequest, ReqwestClient.post, HttpRequest.header, HttpRequest.setBody, h]
  · intro h
    simp [ntfyRequest, ReqwestClient.post, HttpRequest.header, HttpRequest.setBody, h,
      List.lookup]

/-- Witness for C3: at a concrete message with both fields absent, both
headers are present with empty values. -/
theorem ntfy_none_headers_empty_witness :
    (ntfyRequest (Client.new "https://ntfy.sh" "backup" "xyz123")
        { title := none, message := "Ping", tags := none }).headers.lookup "Title" = some "" ∧
      (ntfyRequest (Client.new "https://ntfy.sh" "backup" "xyz123")
        { title := none, message := "Ping", tags := none }).headers.lookup "Tags" = some "" :=
  ⟨(ntfy_none_headers_empty _ _).1 rfl, (ntfy_none_headers_empty _ _).2 rfl⟩

/-- C4: the body of the request the dispatcher sends equals the `message`
field exactly, for every content. -/
theorem ntfy_body_exact (cli : Client) (msg : Message) :
    (ntfyRequest cli msg).body = msg.message := by
  rfl

/-- C5: the dispatcher returns `Except.error e` if and only if the
transport failed with that very error `e`: failures are surfaced
unmodified and nothing else produces an error. -/
theorem ntfy_error_iff_send_error {ε : Type} (send : HttpRequest → Except ε HttpResponse)
    (cli : Client) (msg : Message) (e : ε) :
    ntfy send cli msg = Except.error e ↔ send (ntfyRequest cli msg) = Except.error e := by
  rw [ntfy_eq_send]

/-- C6: builder setters are last-write-wins: a second `.title` call
overrides the first, and a second `.tags` call overrides the first. -/
theorem builder_last_write_wins (m : String) (a : String) (b : String) :
    ((((Message.builder m).setTitle a).setTitle b).build).title = some b ∧
      ((((Message.builder m).setTags a).setTags b).build).tags = some b := by
  exact ⟨rfl, rfl⟩

/-- C7: `Client::new` stores its three string arguments verbatim and is
total (construction always succeeds, including for empty strings). -/
theorem client_new_verbatim (server : String) (topic : String) (uuid : String) :
    (Client.new server topic uuid).server = server ∧
      (Client.new server topic uuid).topic = topic ∧
      (Client.new server topic uuid).uuid = uuid := by
  exact ⟨rfl, rfl, rfl⟩

/-- C8: for every message string `m`, `builder(m).build()` yields exactly
`Message {title := none, message := m, tags := none}`, with no
validation. -/
theorem builder_build_default (m : String) :
    ((Message.builder m).build) = { title := none, message := m, tags := none } := by
  rfl

/-- C9: each setter changes only its own field: `.title` leaves `message`
and `tags` unchanged, `.tags` leaves `title` and `message` unchanged. -/
theorem builder_setters_frame (b : MessageBuilder) (t : String) :
    (b.setTitle t).message = b.message ∧ (b.setTitle t).tags = b.tags ∧
      (b.setTags t).title = b.title ∧ (b.setTags t).message = b.message := by
  exact ⟨rfl, rfl, rfl, rfl⟩

/-- C10: the `.title` and `.tags` setters commute: applying them in either
order to `builder(m)` builds the same `Message`. -/
theorem builder_setters_commute (m : String) (a : String) (b : String) :
    (((Message.builder m).setTitle a).setTags b).build =
      (((Message.builder m).setTags b).setTitle a).build := by
  rfl
